import Mathlib

/-!
Verification of the table-consolidation and date/schema-reconciliation core
of the repository (source file src/helper.py) against its natural-language
specification.

The Python source is embedded shallowly:
- Python regular-expression searches are embedded as executable matchers
  over lists of characters.  Every pattern in the source is a fixed-shape
  pattern (no nested unbounded repetition), and wherever the source uses a
  bounded greedy quantifier it is immediately followed by a character class
  disjoint from the quantified one, so greedy maximal-munch matching is
  exactly equivalent to the backtracking semantics of the Python engine;
  each matcher is a direct transcription of the corresponding regex.
- Python exceptions (ValueError raised by the built-in int conversion and
  by min applied to an empty sequence) are embedded with the Except monad.
- pandas DataFrames are embedded as a list of column labels plus a list of
  rows, each row a list of optional cells (none standing for NaN) aligned
  positionally with the columns.  pd.concat with ignore_index=True is
  embedded together with its label alignment: frames whose column lists
  are equal under Python value equality concatenate rows directly, and
  otherwise the union of the labels is taken in order of first appearance
  and every row is reindexed to it with missing cells padded (see pdConcat
  for the one modelled boundary, duplicate labels under realignment).
  Row indices being list positions, ignore_index reassignment is implicit.
  A column label is a string, an int or a float; floats are represented by
  rationals, so cross-type label comparisons (int against float) use exact
  numeric equality as Python == does; float NaN labels are outside the
  model.
-/

/-! ## Character helpers (Python re semantics) -/

/-- Python regex word character for the ASCII inputs at hand: `[A-Za-z0-9_]`. -/
def isWordChar (c : Char) : Bool := c.isAlphanum || c == '_'

/-- A `\b` word boundary holds before a word character iff the preceding
character (if any) is not a word character.  All patterns in the source
start with a word character, so this is the only form of leading boundary
needed. -/
def boundaryOkBefore : Option Char → Bool
  | none => true
  | some p => !isWordChar p

/-- A `\b` word boundary holds after a word character iff the following
character (if any) is not a word character.  All patterns in the source
end with a word character before their trailing `\b`. -/
def boundaryOkAfter : List Char → Bool
  | [] => true
  | c :: _ => !isWordChar c

/-- Consume exactly `n` digits (`\d{n}`). -/
def eatDigitsExact : Nat → List Char → Option (List Char)
  | 0, cs => some cs
  | _ + 1, [] => none
  | n + 1, c :: cs => if c.isDigit then eatDigitsExact n cs else none

/-- Consume a literal character sequence. -/
def eatStr : List Char → List Char → Option (List Char)
  | [], cs => some cs
  | _ :: _, [] => none
  | l :: ls, c :: cs => if c = l then eatStr ls cs else none

/-- Length of the maximal leading digit run, with the remainder.  Used to
embed greedy `\d{m,n}` quantifiers that are followed by a non-digit
requirement (see the module comment on maximal munch). -/
def digitRun : List Char → Nat × List Char
  | [] => (0, [])
  | c :: cs =>
    if c.isDigit then
      let r := digitRun cs
      (r.1 + 1, r.2)
    else (0, c :: cs)

/-- Length of the maximal leading whitespace run (`\s*` / `\s+`), with the
remainder. -/
def wsRun : List Char → Nat × List Char
  | [] => (0, [])
  | c :: cs =>
    if c.isWhitespace then
      let r := wsRun cs
      (r.1 + 1, r.2)
    else (0, c :: cs)

/-- Consume the first alternative from `lits` that is a literal prefix of
the input (regex alternation tries alternatives left to right).  None of
the alternation lists in the source contains a string that is a prefix of
another, so first-match equals the backtracking semantics. -/
def eatOneOfStrs : List String → List Char → Option (List Char)
  | [], _ => none
  | s :: ss, cs =>
    match eatStr s.data cs with
    | some r => some r
    | none => eatOneOfStrs ss cs

/-- Consume exactly `n` word characters (`\w{n}`). -/
def eatWordChars : Nat → List Char → Option (List Char)
  | 0, cs => some cs
  | _ + 1, [] => none
  | n + 1, c :: cs => if isWordChar c then eatWordChars n cs else none

/-- Final step of a pattern that ends in a trailing `\b`: the remainder of
a successful consumption must start at a word boundary. -/
def tailBoundary : Option (List Char) → Bool
  | none => false
  | some rest => boundaryOkAfter rest

/-- Generic re.search driver: try the positional matcher at every
position of the string (including the final empty position), tracking the
previous character for leading word-boundary checks. -/
def searchGo (matchAt : Option Char → List Char → Bool) : Option Char → List Char → Bool
  | prev, [] => matchAt prev []
  | prev, c :: cs => matchAt prev (c :: cs) || searchGo matchAt (some c) cs

/-- re.search of a positional matcher anywhere in a string. -/
def searchPat (matchAt : Option Char → List Char → Bool) (s : String) : Bool :=
  searchGo matchAt none s.data

/-! ## DateFormatDetector: identify_date_format (helper.py lines 212-243) -/

/-- The three-letter month abbreviations of the source patterns. -/
def monthAbbrevs : List String :=
  ["Jan", "Feb", "Mar", "Apr", "May", "Jun", "Jul", "Aug", "Sep", "Oct", "Nov", "Dec"]

/-- Pattern 1: `\b\d{4}-\d{2}-\d{2}\b`. -/
def matchYmdAt (prev : Option Char) (cs : List Char) : Bool :=
  boundaryOkBefore prev &&
    tailBoundary ((eatDigitsExact 4 cs).bind (eatStr "-".data) |>.bind (eatDigitsExact 2)
      |>.bind (eatStr "-".data) |>.bind (eatDigitsExact 2))

/-- Pattern 2: `\b\d{2}/\d{2}/\d{4}\b`. -/
def matchDmY4At (prev : Option Char) (cs : List Char) : Bool :=
  boundaryOkBefore prev &&
    tailBoundary ((eatDigitsExact 2 cs).bind (eatStr "/".data) |>.bind (eatDigitsExact 2)
      |>.bind (eatStr "/".data) |>.bind (eatDigitsExact 4))

/-- Pattern 3: `\b\d{2}/\d{2}/\d{2}\b`. -/
def matchDmY2At (prev : Option Char) (cs : List Char) : Bool :=
  boundaryOkBefore prev &&
    tailBoundary ((eatDigitsExact 2 cs).bind (eatStr "/".data) |>.bind (eatDigitsExact 2)
      |>.bind (eatStr "/".data) |>.bind (eatDigitsExact 2))

/-- Pattern 4: `\b\d{1,2}\s+(Jan|...|Dec)\.\s*\d{4}\b`.  The greedy
`\d{1,2}` is followed by `\s+`, so a leading digit run longer than two
characters can never match; similarly `\s*` is followed by a digit. -/
def matchDbDotYAt (prev : Option Char) (cs : List Char) : Bool :=
  boundaryOkBefore prev &&
    (let d := digitRun cs
     if d.1 = 0 || d.1 > 2 then false
     else
       let w := wsRun d.2
       if w.1 = 0 then false
       else
         match eatOneOfStrs monthAbbrevs w.2 with
         | none => false
         | some r3 =>
           match eatStr ".".data r3 with
           | none => false
           | some r4 => tailBoundary (eatDigitsExact 4 (wsRun r4).2))

/-- Pattern 5: `\b\d{1,2}\s+(Jan|...|Dec)\s+\d{2,4}\b`.  The trailing
`\d{2,4}\b` matches iff the maximal digit run has length two to four and
is followed by a word boundary: any shorter greedy choice leaves a digit
(a word character) as the next character. -/
def matchDbyAt (prev : Option Char) (cs : List Char) : Bool :=
  boundaryOkBefore prev &&
    (let d := digitRun cs
     if d.1 = 0 || d.1 > 2 then false
     else
       let w := wsRun d.2
       if w.1 = 0 then false
       else
         match eatOneOfStrs monthAbbrevs w.2 with
         | none => false
         | some r3 =>
           let w2 := wsRun r3
           if w2.1 = 0 then false
           else
             let y := digitRun w2.2
             decide (2 ≤ y.1) && decide (y.1 ≤ 4) && boundaryOkAfter y.2)

/-- Pattern 6: `\b\d{2}-\w{3}-\d{4}\b`. -/
def matchDbHyphenYAt (prev : Option Char) (cs : List Char) : Bool :=
  boundaryOkBefore prev &&
    tailBoundary ((eatDigitsExact 2 cs).bind (eatStr "-".data) |>.bind (eatWordChars 3)
      |>.bind (eatStr "-".data) |>.bind (eatDigitsExact 4))

/-- Pattern 7: `\b\d{2}/\d{2}\b`. -/
def matchDmAt (prev : Option Char) (cs : List Char) : Bool :=
  boundaryOkBefore prev &&
    tailBoundary ((eatDigitsExact 2 cs).bind (eatStr "/".data) |>.bind (eatDigitsExact 2))

/-- The ordered (pattern, format-tag) rule list of identify_date_format,
transcribed rule for rule from helper.py lines 223-234. -/
def date_patterns : List ((Option Char → List Char → Bool) × String) :=
  [(matchYmdAt, "%Y-%m-%d"),
   (matchDmY4At, "%d/%m/%Y"),
   (matchDmY2At, "%d/%m/%y"),
   (matchDbDotYAt, "%d %b. %Y"),
   (matchDbyAt, "%d %b %y/%Y"),
   (matchDbHyphenYAt, "%d-%b-%Y"),
   (matchDmAt, "%d/%m")]

/-- identify_date_format (helper.py lines 212-243): return the tag of the
first rule whose pattern matches anywhere in the string, or none. -/
def identify_date_format (date_string : String) : Option String :=
  (date_patterns.find? (fun pt => searchPat pt.1 date_string)).map (fun pt => pt.2)

/-! ## YearAnnotator: add_year_to_dates (helper.py lines 288-296) -/

/-- add_year_to_dates (helper.py lines 288-296).  The source guard is
`identify_date_format(date_series) is 'dd/mm'`: an identity comparison
against the literal string dd/mm.  String identity implies string
equality, so the guard is embedded as the (weaker, hence conservative)
value equality with that literal; the development proves the guard never
holds even in this weaker form, hence a fortiori never under identity. -/
def add_year_to_dates (date_series : String) (start_year : Int) : String :=
  if identify_date_format date_series = some "dd/mm" then
    if date_series = "01/01" then
      date_series.trim ++ "/" ++ toString (start_year + 1)
    else
      date_series.trim ++ "/" ++ toString start_year
  else date_series

/-! ## StartYearExtractor: extract_start_years (helper.py lines 246-285)

The source builds a combined pattern ({p1})|({p2})|({p3})|({p4}) and runs
re.findall on it.  Because each alternative is wrapped in an extra group,
the tuple returned for a match has eight entries: for alternative k the
entry 2k-1 is the whole text matched by that alternative and the entry 2k
is its inner capture, all other entries being empty strings. -/

/-- The full month names of pattern 1 of extract_start_years. -/
def monthFulls : List String :=
  ["January", "February", "March", "April", "May", "June", "July", "August",
   "September", "October", "November", "December"]

/-- Whole text consumed by a positional match, reconstructed from the
input and the remainder. -/
def wholeStr (cs rest : List Char) : String :=
  String.mk (cs.take (cs.length - rest.length))

/-- Alternative 1 of the combined pattern:
`\b\d{2} \b(Month) (\d{4}) to \d{2} \b(Month) \d{4}\b` with full month
names; returns the inner capture (the first four-digit year) and the
remainder.  The `\b` before each month name sits between a space and a
letter and therefore always holds when the month literal matches. -/
def matchP1core (prev : Option Char) (cs : List Char) : Option (String × List Char) :=
  if !boundaryOkBefore prev then none
  else
    match (eatDigitsExact 2 cs).bind (eatStr " ".data) |>.bind (eatOneOfStrs monthFulls)
      |>.bind (eatStr " ".data) with
    | none => none
    | some r3 =>
      match eatDigitsExact 4 r3 with
      | none => none
      | some r4 =>
        match (eatStr " to ".data r4).bind (eatDigitsExact 2) |>.bind (eatStr " ".data)
          |>.bind (eatOneOfStrs monthFulls) |>.bind (eatStr " ".data)
          |>.bind (eatDigitsExact 4) with
        | none => none
        | some r5 =>
          if boundaryOkAfter r5 then some (String.mk (r3.take 4), r5) else none

/-- Alternative 2 of the combined pattern:
`\b\d{2}/\d{2}/(\d{4}) to \d{2}/\d{2}/\d{4}\b`; returns the inner capture
(the first four-digit year) and the remainder. -/
def matchP2core (prev : Option Char) (cs : List Char) : Option (String × List Char) :=
  if !boundaryOkBefore prev then none
  else
    match (eatDigitsExact 2 cs).bind (eatStr "/".data) |>.bind (eatDigitsExact 2)
      |>.bind (eatStr "/".data) with
    | none => none
    | some r3 =>
      match eatDigitsExact 4 r3 with
      | none => none
      | some r4 =>
        match (eatStr " to ".data r4).bind (eatDigitsExact 2) |>.bind (eatStr "/".data)
          |>.bind (eatDigitsExact 2) |>.bind (eatStr "/".data)
          |>.bind (eatDigitsExact 4) with
        | none => none
        | some r5 =>
          if boundaryOkAfter r5 then some (String.mk (r3.take 4), r5) else none

/-- Alternative 3 of the combined pattern:
`\bSTATEMENT DATE\s(\d{2}/\d{2}/\d{2})\b`; returns the inner capture (the
eight-character date) and the remainder. -/
def matchP3core (prev : Option Char) (cs : List Char) : Option (String × List Char) :=
  if !boundaryOkBefore prev then none
  else
    match eatStr "STATEMENT DATE".data cs with
    | none => none
    | some r1 =>
      match r1 with
      | [] => none
      | c :: r2 =>
        if c.isWhitespace then
          match (eatDigitsExact 2 r2).bind (eatStr "/".data) |>.bind (eatDigitsExact 2)
            |>.bind (eatStr "/".data) |>.bind (eatDigitsExact 2) with
          | none => none
          | some r3 =>
            if boundaryOkAfter r3 then some (String.mk (r2.take 8), r3) else none
        else none

/-- Alternative 4 of the combined pattern: `\b(\d{2}/\d{2}/\d{2})\b`;
returns the inner capture (the whole eight-character date) and the
remainder. -/
def matchP4core (prev : Option Char) (cs : List Char) : Option (String × List Char) :=
  if !boundaryOkBefore prev then none
  else
    match (eatDigitsExact 2 cs).bind (eatStr "/".data) |>.bind (eatDigitsExact 2)
      |>.bind (eatStr "/".data) |>.bind (eatDigitsExact 2) with
    | none => none
    | some r =>
      if boundaryOkAfter r then some (String.mk (cs.take 8), r) else none

/-- Try the four alternatives of the combined pattern, in declaration
order, at one position; on success return the eight-entry findall tuple
and the remainder of the input. -/
def tryAlts (prev : Option Char) (cs : List Char) : Option (List String × List Char) :=
  match matchP1core prev cs with
  | some pr => some ([wholeStr cs pr.2, pr.1, "", "", "", "", "", ""], pr.2)
  | none =>
    match matchP2core prev cs with
    | some pr => some (["", "", wholeStr cs pr.2, pr.1, "", "", "", ""], pr.2)
    | none =>
      match matchP3core prev cs with
      | some pr => some (["", "", "", "", wholeStr cs pr.2, pr.1, "", ""], pr.2)
      | none =>
        match matchP4core prev cs with
        | some pr => some (["", "", "", "", "", "", wholeStr cs pr.2, pr.1], pr.2)
        | none => none

/-- re.findall over the combined pattern: scan left to right, at each
position try the alternatives in order, and on a match continue after the
matched text.  Every alternative consumes at least one character, so the
input length bounds the number of matches; the first argument is that
fuel. -/
def findallAux : Nat → Option Char → List Char → List (List String)
  | 0, _, _ => []
  | _ + 1, _, [] => []
  | fuel + 1, prev, c :: cs =>
    match tryAlts prev (c :: cs) with
    | some (tup, rest) =>
      let consumed := (c :: cs).take ((c :: cs).length - rest.length)
      tup :: findallAux fuel consumed.getLast? rest
    | none => findallAux fuel (some c) cs

/-- re.findall(combined_pattern, text) of extract_start_years. -/
def findallCombined (text : String) : List (List String) :=
  findallAux text.data.length none text.data

/-- The exceptions the Python source can raise while extracting start
years: ValueError from int() on a non-numeric string, and ValueError from
min() on an empty sequence.  The latter is the no-date-found failure of
the specification. -/
inductive PyErr where
  | intParse (s : String)
  | minEmpty
deriving DecidableEq

deriving instance DecidableEq for Except

/-- re.match(r"\d{2}/\d{2}/\d{2}", s): an (unanchored-at-the-end) prefix
check, with no word boundaries. -/
def ddmmyyAtStart (s : String) : Bool :=
  ((eatDigitsExact 2 s.data).bind (eatStr "/".data) |>.bind (eatDigitsExact 2)
    |>.bind (eatStr "/".data) |>.bind (eatDigitsExact 2)).isSome

/-- Digit list to the natural number it denotes in base ten. -/
def digitsToNat (ds : List Char) : Nat :=
  ds.foldl (fun a c => a * 10 + (c.toNat - 48)) 0

/-- Surrounding-whitespace stripping of the Python built-in int (the str
strip method), on character lists. -/
def stripWs (cs : List Char) : List Char :=
  ((cs.dropWhile Char.isWhitespace).reverse.dropWhile Char.isWhitespace).reverse

/-- The Python built-in int applied to a string: strip surrounding
whitespace, allow one optional sign, then require a nonempty digit run;
anything else raises ValueError, embedded as none. -/
def pyInt : String → Option Int
  | s =>
    match stripWs s.data with
    | [] => none
    | '-' :: ds => if ds ≠ [] && ds.all Char.isDigit then some (-(digitsToNat ds : Int)) else none
    | '+' :: ds => if ds ≠ [] && ds.all Char.isDigit then some ((digitsToNat ds : Int)) else none
    | ds => if ds.all Char.isDigit then some ((digitsToNat ds : Int)) else none

/-- The str split method on the separator '/': split at every slash,
keeping empty components, as Python does. -/
def splitSlashAux : List Char → List Char → List String
  | acc, [] => [String.mk acc.reverse]
  | acc, c :: cs =>
    if c = '/' then String.mk acc.reverse :: splitSlashAux [] cs
    else splitSlashAux (c :: acc) cs

/-- date_str.split('/') of the source. -/
def splitSlash (s : String) : List String :=
  splitSlashAux [] s.data

/-- The per-match body of the extraction loop (helper.py lines 263-279):
given the first non-empty tuple entry, either normalize a two-digit year
(threshold 50), pass a presumed four-digit year through, or raise
ValueError when int() is applied to a non-numeric third slash-component. -/
def normalize_year (date_str : String) : Except PyErr String :=
  if ddmmyyAtStart date_str then
    let date_parts := splitSlash date_str
    let year := (date_parts.drop 2).headD ""
    match pyInt year with
    | none => Except.error (PyErr.intParse year)
    | some y => Except.ok (if y ≤ 50 then "20" ++ year else "19" ++ year)
  else Except.ok date_str

/-- The extraction loop over all findall tuples: for each tuple take the
first non-empty entry (if any), normalize it, and collect the results in
order; a ValueError aborts the loop. -/
def collectStartYears : List (List String) → Except PyErr (List String)
  | [] => Except.ok []
  | m :: ms =>
    match m.find? (fun d => !(d == "")) with
    | none => collectStartYears ms
    | some date_str =>
      match normalize_year date_str with
      | Except.error e => Except.error e
      | Except.ok y =>
        match collectStartYears ms with
        | Except.error e => Except.error e
        | Except.ok ys => Except.ok (y :: ys)

/-- Duplicate removal of the Python set constructor, keeping first
occurrences.  The set iteration order is unspecified in Python; for the
subsequent minimum this only matters for ties between distinct strings
with equal numeric key, which do not arise for the strings this program
builds. -/
def dedupAux : List String → List String → List String
  | _, [] => []
  | seen, x :: xs =>
    if x ∈ seen then dedupAux seen xs else x :: dedupAux (x :: seen) xs

/-- Loop of min(ys, key=int) with a current best: the int key is applied
to every element and raises on non-numeric strings. -/
def minByIntAux : String → Int → List String → Except PyErr String
  | best, _, [] => Except.ok best
  | best, bkey, x :: xs =>
    match pyInt x with
    | none => Except.error (PyErr.intParse x)
    | some k => if k < bkey then minByIntAux x k xs else minByIntAux best bkey xs

/-- min(ys, key=int): ValueError on the empty sequence, otherwise the
element with the least int key (first such element on ties). -/
def pyMinByInt : List String → Except PyErr String
  | [] => Except.error PyErr.minEmpty
  | x :: xs =>
    match pyInt x with
    | none => Except.error (PyErr.intParse x)
    | some k => minByIntAux x k xs

/-- extract_start_years (helper.py lines 246-285). -/
def extract_start_years (text : String) : Except PyErr String :=
  match collectStartYears (findallCombined text) with
  | Except.error e => Except.error e
  | Except.ok start_years => pyMinByInt (dedupAux [] start_years)

/-! ## FiscalYearResolver: get_fiscal_year (helper.py lines 203-209) -/

/-- The fields of a Python datetime that get_fiscal_year reads. -/
structure PyDate where
  year : Int
  month : Nat
  day : Nat
deriving DecidableEq

/-- get_fiscal_year (helper.py lines 203-209). -/
def get_fiscal_year (fiscal_start_dates : Nat × Nat) (transaction_date : PyDate) : Int :=
  let fiscal_start_month := fiscal_start_dates.1
  let fiscal_start_day := fiscal_start_dates.2
  if transaction_date.month > fiscal_start_month ∨
      (transaction_date.month = fiscal_start_month ∧ transaction_date.day ≥ fiscal_start_day) then
    transaction_date.year + 1
  else
    transaction_date.year

/-! ## Column labels, contains_only_numbers, and the sheet classifier -/

/-- A column label of an extracted table: a string, an int or a float
(floats represented by rationals; only the type of the label matters to
the source). -/
inductive Label where
  | strL (s : String)
  | intL (n : Int)
  | floatL (q : Rat)
deriving DecidableEq

/-- The isinstance(item, (int, float)) test of the source. -/
def isIntOrFloat : Label → Bool
  | Label.strL _ => false
  | Label.intL _ => true
  | Label.floatL _ => true

/-- contains_only_numbers (helper.py lines 196-200): the loop returns
False at the first non-numeric item and True when the list is exhausted
(in particular True on the empty list). -/
def contains_only_numbers : List Label → Bool
  | [] => true
  | item :: rest => if !isIntOrFloat item then false else contains_only_numbers rest

/-- Positional matcher for the compiled pattern `\bdate\b` with
re.IGNORECASE: the four letters of the word date, case-insensitively,
enclosed in word boundaries. -/
def dateWordAt (prev : Option Char) : List Char → Bool
  | c1 :: c2 :: c3 :: c4 :: rest =>
    c1.toLower == 'd' && c2.toLower == 'a' && c3.toLower == 't' && c4.toLower == 'e' &&
      boundaryOkBefore prev && boundaryOkAfter rest
  | _ => false

/-- re.search(re.compile(r'\bdate\b', re.IGNORECASE), header). -/
def containsWordDate (s : String) : Bool :=
  searchPat dateWordAt s

/-- The loop of to_excel over the column labels (helper.py lines 50-52):
some label is a string and the date pattern is found in it.  The source
assigns the Transaction name once per such label; reassigning the same
value makes the loop equivalent to this existence check. -/
def has_date_label (columns : List Label) : Bool :=
  columns.any (fun h =>
    match h with
    | Label.strL s => containsWordDate s
    | _ => false)

/-- The per-table sheet naming and header-visibility logic of to_excel
(helper.py lines 41-53), for the table at 0-based enumerate index idx:
default name Summary_(idx+1) with the header shown; if the labels are all
numeric the header is hidden; otherwise any string label containing the
whole word date renames the sheet to Transaction_(idx+1). -/
def classify_sheet (idx : Nat) (columns : List Label) : String × Bool :=
  if contains_only_numbers columns then
    ("Summary_" ++ toString (idx + 1), false)
  else
    (if has_date_label columns then
      "Transaction_" ++ toString (idx + 1)
    else
      "Summary_" ++ toString (idx + 1), true)

/-! ## TableConsolidator: merge_matching_columns (helper.py lines 174-193) -/

/-- A pandas DataFrame as the consolidator sees it: an ordered list of
column labels and an ordered list of rows, each row a list of cells
positionally aligned with the columns.  Cell values are abstract (a type
parameter); a none cell is the NaN padding pd.concat introduces when it
realigns frames with differing labels. -/
structure DataFrame (ρ : Type) where
  columns : List Label
  rows : List (List (Option ρ))
deriving DecidableEq

/-- Python value equality (the == operator) on column labels: strings
compare by value (case-sensitively), int and float labels compare
numerically across the two types, and a string never equals a number.
This is the equality the == comparison of the signature lists in the
source uses elementwise, and the one pandas label alignment applies. -/
def pyLabelEq : Label → Label → Bool
  | Label.strL a, Label.strL b => decide (a = b)
  | Label.intL a, Label.intL b => decide (a = b)
  | Label.floatL a, Label.floatL b => decide (a = b)
  | Label.intL a, Label.floatL b => decide ((a : Rat) = b)
  | Label.floatL a, Label.intL b => decide (a = (b : Rat))
  | _, _ => false

/-- Python == on label lists: equal length and elementwise equality. -/
def pyLabelListEq : List Label → List Label → Bool
  | [], [] => true
  | x :: xs, y :: ys => pyLabelEq x y && pyLabelListEq xs ys
  | _, _ => false

/-- Python label equality is reflexive (float NaN labels, the one
non-reflexive Python case, are outside the model: floats are represented
by rationals). -/
theorem pyLabelEq_refl (l : Label) : pyLabelEq l l = true := by
  cases l <;> simp [pyLabelEq]

/-- Python label-list equality is reflexive. -/
theorem pyLabelListEq_refl (ls : List Label) : pyLabelListEq ls ls = true := by
  induction ls with
  | nil => rfl
  | cons x xs ih => simp [pyLabelListEq, pyLabelEq_refl, ih]

/-- The per-table signature computed by merge_matching_columns:
`[col.strip() if isinstance(col, str) else col for col in df.columns]`.
String labels are stripped of surrounding whitespace, other labels pass
through. -/
def stripLabel : Label → Label
  | Label.strL s => Label.strL (String.mk (stripWs s.data))
  | l => l

/-- The stripped column-label list used as the merge key. -/
def signatureOf (cols : List Label) : List Label :=
  cols.map stripLabel

/-- Membership in a label list under Python equality. -/
def containsPyEq (c : Label) : List Label → Bool
  | [] => false
  | x :: xs => pyLabelEq x c || containsPyEq c xs

/-- The union of the column labels of a frame list, in order of first
appearance and deduplicated under Python equality: the columns pd.concat
produces for the non-concatenation axis with the default sort=False when
the frames differ. -/
def unionColumns (dfs : List (DataFrame ρ)) : List Label :=
  dfs.foldl
    (fun acc g => g.columns.foldl (fun a c => if containsPyEq c a then a else a ++ [c]) acc) []

/-- Value of a row at the first column of the frame whose label
Python-equals the requested label; none (NaN) when the frame has no such
column. -/
def lookupByLabel : List Label → List (Option ρ) → Label → Option ρ
  | [], _, _ => none
  | _ :: _, [], _ => none
  | c0 :: cs, v :: vs, c => if pyLabelEq c0 c then v else lookupByLabel cs vs c

/-- Reindex one row of a frame with the given columns to the union
columns: each union label takes the row value of the matching frame
column, or NaN padding. -/
def alignRow (cols ucols : List Label) (row : List (Option ρ)) : List (Option ρ) :=
  ucols.map (fun c => lookupByLabel cols row c)

/-- pd.concat(matched_dfs, ignore_index=True) (helper.py line 188).  When
all frames carry the same columns under Python equality, pandas skips
realignment (the all-indexes-same fast path) and the result is the first
frame columns over the concatenated rows.  Otherwise the result takes the
union of the column labels in order of first appearance and every row is
reindexed to it, labels absent from a frame padded with NaN.  Boundary of
the model: a frame with duplicate column labels that needs realignment
makes the real pandas raise, while the model realigns it by first
occurrence; no theorem below depends on that region, since the general
theorems only traverse the fast path and the concrete instances are
duplicate-free.  A second boundary: when int and float labels are equal
in value, pandas may unify the dtype of the surviving label while the
model keeps the first frame representative; no theorem below asserts
which representative survives such a merge.  The source never calls
pd.concat on an empty list (the matched list always holds the seed), so
the empty case is arbitrary. -/
def pdConcat : List (DataFrame ρ) → DataFrame ρ
  | [] => { columns := [], rows := [] }
  | f :: fs =>
    if fs.all (fun g => pyLabelListEq g.columns f.columns) then
      { columns := f.columns, rows := ((f :: fs).map DataFrame.rows).flatten }
    else
      { columns := unionColumns (f :: fs),
        rows := ((f :: fs).map
          (fun g => g.rows.map (alignRow g.columns (unionColumns (f :: fs))))).flatten }

/-- The inner reverse scan of merge_matching_columns: the source iterates
i from the last index of dfs down to 0 and pops every table whose
signature list ==-equals match_columns.  Popping at index i only moves
tables at later indices, which the descending loop has already visited,
so the scan is equivalent to this recursion, which processes the tail
first and appends the head table after it.  Returns (tables left in dfs,
tables collected in pop order). -/
def collect_matches (match_columns : List Label) :
    List (DataFrame ρ) → List (DataFrame ρ) × List (DataFrame ρ)
  | [] => ([], [])
  | t :: ts =>
    let r := collect_matches match_columns ts
    if pyLabelListEq (signatureOf t.columns) match_columns then (r.1, r.2 ++ [t])
    else (t :: r.1, r.2)

/-- Length bound needed for the termination of the outer loop: the scan
never adds tables. -/
theorem collect_matches_fst_length_le (match_columns : List Label)
    (ts : List (DataFrame ρ)) :
    (collect_matches match_columns ts).1.length ≤ ts.length := by
  induction ts with
  | nil => simp [collect_matches]
  | cons t ts ih =>
    simp only [collect_matches]
    split
    · exact Nat.le_succ_of_le ih
    · simpa using Nat.succ_le_succ ih

/-- merge_matching_columns (helper.py lines 174-193): pop the first table
as the seed, collect every later table with the same stripped signature
(under Python ==) by the reverse scan, and append
pd.concat([seed] ++ collected, ignore_index=True), or the seed alone when
nothing was collected. -/
def merge_matching_columns : List (DataFrame ρ) → List (DataFrame ρ)
  | [] => []
  | df :: dfs =>
    let matched_dfs := df :: (collect_matches (signatureOf df.columns) dfs).2
    (if matched_dfs.length > 1 then pdConcat matched_dfs else df) ::
      merge_matching_columns (collect_matches (signatureOf df.columns) dfs).1
termination_by dfs => dfs.length
decreasing_by
  simp only [List.length_cons]
  exact Nat.lt_succ_of_le (collect_matches_fst_length_le _ _)

/-- The consolidation algorithm as the amended claim words it: remove the
first remaining table as the seed; collect the tables of the rest whose
stripped signature ==-equals the seed signature, in the order of a scan
from the last index to the first (that is, the reverse of their original
order); when anything was collected, the group is pd.concat of the seed
followed by the collected tables in collection order; recurse on the
non-matching rest. -/
def consolidateSpec : List (DataFrame ρ) → List (DataFrame ρ)
  | [] => []
  | seed :: rest =>
    let collected :=
      (rest.filter (fun t => pyLabelListEq (signatureOf t.columns) (signatureOf seed.columns))).reverse
    (if collected.isEmpty then seed else pdConcat (seed :: collected)) ::
      consolidateSpec
        (rest.filter (fun t => !pyLabelListEq (signatureOf t.columns) (signatureOf seed.columns)))
termination_by dfs => dfs.length
decreasing_by
  simp only [List.length_cons]
  exact Nat.lt_succ_of_le (List.length_filter_le _ _)

/-! ## Structural lemmas -/

/-- The reverse scan returns exactly the non-matching tables (in order)
and the matching tables in reverse order of appearance. -/
theorem collect_matches_eq {ρ : Type} (sig : List Label) (ts : List (DataFrame ρ)) :
    collect_matches sig ts =
      (ts.filter (fun t => !pyLabelListEq (signatureOf t.columns) sig),
       (ts.filter (fun t => pyLabelListEq (signatureOf t.columns) sig)).reverse) := by
  induction ts with
  | nil => simp [collect_matches]
  | cons t ts ih =>
    simp only [collect_matches, ih, List.filter]
    cases h : pyLabelListEq (signatureOf t.columns) sig
    · simp [h]
    · simp [h]

/-- The loop of merge_matching_columns computes exactly the greedy
seed-and-reverse-scan consolidation the amended claim describes, by
induction on a length bound. -/
theorem merge_matching_columns_eq_spec_aux {ρ : Type} (n : Nat) :
    ∀ dfs : List (DataFrame ρ), dfs.length ≤ n →
      merge_matching_columns dfs = consolidateSpec dfs := by
  induction n with
  | zero =>
    intro dfs h
    have : dfs = [] := List.eq_nil_of_length_eq_zero (Nat.le_zero.mp h)
    subst this
    simp [merge_matching_columns, consolidateSpec]
  | succ n ih =>
    intro dfs h
    match dfs with
    | [] => simp [merge_matching_columns, consolidateSpec]
    | df :: rest =>
      simp only [merge_matching_columns, consolidateSpec, collect_matches_eq]
      have hlen : (rest.filter
          (fun t => !pyLabelListEq (signatureOf t.columns) (signatureOf df.columns))).length ≤ n := by
        have h1 := List.length_filter_le
          (fun t => !pyLabelListEq (signatureOf t.columns) (signatureOf df.columns)) rest
        have h2 : rest.length ≤ n := Nat.le_of_succ_le_succ h
        omega
      rw [ih _ hlen]
      by_cases hf : rest.filter
          (fun t => pyLabelListEq (signatureOf t.columns) (signatureOf df.columns)) = []
      · simp [hf]
      · have hgt : (df :: (rest.filter
            (fun t => pyLabelListEq (signatureOf t.columns) (signatureOf df.columns))).reverse).length > 1 := by
          simp only [List.length_cons, List.length_reverse]
          have : (rest.filter
              (fun t => pyLabelListEq (signatureOf t.columns) (signatureOf df.columns))).length ≠ 0 := by
            simpa [List.length_eq_zero] using hf
          omega
        have hne : ¬((rest.filter
            (fun t => pyLabelListEq (signatureOf t.columns) (signatureOf df.columns))).reverse.isEmpty = true) := by
          simp [List.isEmpty_eq_true, List.reverse_eq_nil_iff, hf]
        rw [if_pos hgt, if_neg hne]

/-- Whatever identify_date_format returns, it is never the literal dd/mm
the year annotator compares against: the returned tag always comes from
the fixed rule list. -/
theorem identify_date_format_ne_ddmm (s : String) :
    identify_date_format s ≠ some "dd/mm" := by
  unfold identify_date_format
  cases h : date_patterns.find? (fun pt => searchPat pt.1 s) with
  | none => simp
  | some pr =>
    have hm : pr ∈ date_patterns := List.mem_of_find?_eq_some h
    simp only [date_patterns, List.mem_cons, List.not_mem_nil, or_false] at hm
    rcases hm with rfl | rfl | rfl | rfl | rfl | rfl | rfl <;> decide

/-- The early-exit loop of contains_only_numbers computes the all
quantifier over the isinstance test. -/
theorem contains_only_numbers_eq_all (cols : List Label) :
    contains_only_numbers cols = cols.all isIntOrFloat := by
  induction cols with
  | nil => rfl
  | cons l ls ih => cases l <;> simp [contains_only_numbers, isIntOrFloat, List.all_cons, ih]

/-- A date-bearing label is a string label, so its presence refutes the
all-numeric test. -/
theorem all_isIntOrFloat_eq_false_of_has_date (cols : List Label)
    (h : has_date_label cols = true) : cols.all isIntOrFloat = false := by
  rcases List.any_eq_true.mp h with ⟨l, hl, hpred⟩
  cases l with
  | strL s =>
    refine List.all_eq_false.mpr ⟨Label.strL s, hl, ?_⟩
    simp [isIntOrFloat]
  | intL n => simp at hpred
  | floatL q => simp at hpred

/-! ## Claim theorems -/

/-- C1: evaluation of extract_start_years at the inputs named by the
claim.  On the claimed example STATEMENT DATE 05/06/23 the combined
findall tuple carries the whole alternative-3 match in its first
non-empty entry, so the function raises ValueError from int() instead of
returning 2023; the claimed minimum-with-expansion behaviour is only
reached when every match is the bare DD/MM/YY alternative, as the second
and third conjuncts show. -/
theorem extract_start_years_eval :
    extract_start_years "STATEMENT DATE 05/06/23" =
        Except.error (PyErr.intParse "STATEMENT DATE 05/06/23") ∧
    extract_start_years "01/01/19 and 01/01/21" = Except.ok "2019" ∧
    extract_start_years "05/06/23" = Except.ok "2023" :=
  ⟨rfl, rfl, rfl⟩

/-- C2: extract_start_years raises the empty-minimum ValueError (the
no-date-found failure of the specification) when no sub-pattern matches,
and it propagates rather than being defaulted; but it also raises on the
text STATEMENT DATE 05/06/23 even though sub-pattern three does match it
(one findall match exists), refuting the claim that no other reason can
raise. -/
theorem extract_start_years_error_conditions :
    extract_start_years "no dates here" = Except.error PyErr.minEmpty ∧
    findallCombined "no dates here" = [] ∧
    (findallCombined "STATEMENT DATE 05/06/23").length = 1 ∧
    extract_start_years "STATEMENT DATE 05/06/23" ≠ Except.ok "2023" ∧
    extract_start_years "STATEMENT DATE 05/06/23" ≠ Except.error PyErr.minEmpty :=
  ⟨rfl, rfl, rfl, by decide, by decide⟩

/-- C3: evaluation of add_year_to_dates at the inputs named by the claim.
The detector does identify the bare day/month format of both inputs, yet
the function returns them unchanged instead of appending the (rolled
over) year, because the source compares the detected format value with
the literal dd/mm, which identify_date_format never produces. -/
theorem add_year_to_dates_eval :
    add_year_to_dates "01/01" 2023 = "01/01" ∧
    add_year_to_dates "15/03" 2023 = "15/03" ∧
    identify_date_format "01/01" = some "%d/%m" ∧
    identify_date_format "15/03" = some "%d/%m" :=
  ⟨rfl, rfl, rfl, rfl⟩

/-- C4 counterexample: two tables whose stripped signatures match but
whose raw labels differ by surrounding whitespace are grouped, yet the
group is not the seed rows followed by the collected rows under the seed
signature as the claim asserts: pd.concat aligns on the raw labels and
outer-joins them into union columns with NaN-padded rows. -/
theorem merge_matching_columns_counterexample :
    merge_matching_columns
        [⟨[Label.strL "Amount"], ([[some 1]] : List (List (Option Nat)))⟩,
         ⟨[Label.strL " Amount "], [[some 2]]⟩] =
      [⟨[Label.strL "Amount", Label.strL " Amount "], [[some 1, none], [none, some 2]]⟩] ∧
    merge_matching_columns
        [⟨[Label.strL "Amount"], ([[some 1]] : List (List (Option Nat)))⟩,
         ⟨[Label.strL " Amount "], [[some 2]]⟩] ≠
      [⟨[Label.strL "Amount"], [[some 1], [some 2]]⟩] := by
  have h : merge_matching_columns
      [⟨[Label.strL "Amount"], ([[some 1]] : List (List (Option Nat)))⟩,
       ⟨[Label.strL " Amount "], [[some 2]]⟩] =
      [⟨[Label.strL "Amount", Label.strL " Amount "], [[some 1, none], [none, some 2]]⟩] := by
    simp [merge_matching_columns, collect_matches, signatureOf, stripLabel, stripWs,
      pyLabelListEq, pyLabelEq, pdConcat, unionColumns, containsPyEq, alignRow, lookupByLabel]
  exact ⟨h, by rw [h]; decide⟩

/-- C4 amended: merge_matching_columns computes the documented greedy
algorithm (seed = first remaining table; matching tables collected by a
reverse scan; groups emitted in seed order) with grouping under Python
value equality of the stripped signatures and groups built by pd.concat;
when every collected table carries the same raw column labels as the
seed, the group is exactly the seed rows followed by the collected rows
in collection order with indices reassigned contiguously.  The headers
Amount and amount are never merged, while tables labelled with the
numerically equal int 1 and float 1.0 are merged into a single group
whose rows are the concatenation. -/
theorem merge_matching_columns_amended :
    (∀ (ρ : Type) (dfs : List (DataFrame ρ)),
      merge_matching_columns dfs = consolidateSpec dfs) ∧
    (∀ (ρ : Type) (seed : DataFrame ρ) (collected : List (DataFrame ρ)),
      (∀ g ∈ collected, g.columns = seed.columns) →
      pdConcat (seed :: collected) =
        { columns := seed.columns,
          rows := seed.rows ++ (collected.map DataFrame.rows).flatten }) ∧
    merge_matching_columns
        [⟨[Label.strL "Amount"], ([[some 1]] : List (List (Option Nat)))⟩,
         ⟨[Label.strL "amount"], [[some 2]]⟩] =
      [⟨[Label.strL "Amount"], [[some 1]]⟩, ⟨[Label.strL "amount"], [[some 2]]⟩] ∧
    (merge_matching_columns
        [⟨[Label.intL 1], ([[some 1]] : List (List (Option Nat)))⟩,
         ⟨[Label.floatL 1], [[some 2]]⟩]).map DataFrame.rows =
      [[[some 1], [some 2]]] := by
  refine ⟨?_, ?_, ?_, ?_⟩
  · intro ρ dfs
    exact merge_matching_columns_eq_spec_aux dfs.length dfs le_rfl
  · intro ρ seed collected hcols
    have hall : collected.all (fun g => pyLabelListEq g.columns seed.columns) = true := by
      rw [List.all_eq_true]
      intro g hg
      rw [hcols g hg]
      exact pyLabelListEq_refl _
    simp only [pdConcat]
    rw [if_pos hall]
    simp
  · simp [merge_matching_columns, collect_matches, signatureOf, stripLabel, stripWs,
      pyLabelListEq, pyLabelEq]
  · simp [merge_matching_columns, collect_matches, signatureOf, stripLabel,
      pyLabelListEq, pyLabelEq, pdConcat, pyLabelEq_refl]

/-- C4 witness: the concatenation conjunct of the amended theorem applied
to two concrete frames with identical raw columns, its hypothesis
discharged there. -/
theorem merge_matching_columns_amended_witness :
    pdConcat [(⟨[Label.strL "Date"], [[some 1]]⟩ : DataFrame Nat),
              ⟨[Label.strL "Date"], [[some 2]]⟩] =
      { columns := [Label.strL "Date"], rows := [[some 1], [some 2]] } := by
  have h := merge_matching_columns_amended.2.1 Nat
    ⟨[Label.strL "Date"], [[some 1]]⟩ [⟨[Label.strL "Date"], [[some 2]]⟩]
    (by intro g hg; rw [List.mem_singleton] at hg; rw [hg])
  simpa using h

/-- C5: add_year_to_dates is the identity on its first argument for every
input and every start year, because identify_date_format only ever
returns tags from its fixed rule list, none of which is the literal
dd/mm the guard compares against (the guard is an identity comparison in
the source, which can only hold when value equality does). -/
theorem add_year_to_dates_identity (date_series : String) (start_year : Int) :
    add_year_to_dates date_series start_year = date_series := by
  rw [add_year_to_dates, if_neg (identify_date_format_ne_ddmm date_series)]

/-- C6: get_fiscal_year maps a date to year plus one exactly when
(month, day) is at least (startMonth, startDay) in lexicographic order,
with an inclusive boundary; in particular with fiscal start April 1 the
date 2024-04-01 maps to 2025 and 2024-03-31 maps to 2024. -/
theorem get_fiscal_year_correct :
    (∀ (sm sd : Nat) (y : Int) (m d : Nat),
      get_fiscal_year (sm, sd) ⟨y, m, d⟩ =
        if toLex ((sm, sd) : Nat × Nat) ≤ toLex ((m, d) : Nat × Nat) then y + 1 else y) ∧
    get_fiscal_year (4, 1) ⟨2024, 4, 1⟩ = 2025 ∧
    get_fiscal_year (4, 1) ⟨2024, 3, 31⟩ = 2024 := by
  refine ⟨?_, rfl, rfl⟩
  intro sm sd y m d
  have hiff : (toLex ((sm, sd) : Nat × Nat) ≤ toLex ((m, d) : Nat × Nat)) ↔
      (m > sm ∨ (m = sm ∧ d ≥ sd)) := by
    rw [Prod.Lex.le_iff]
    constructor
    · rintro (h | ⟨h1, h2⟩)
      · exact Or.inl h
      · exact Or.inr ⟨h1.symm, h2⟩
    · rintro (h | ⟨h1, h2⟩)
      · exact Or.inl h
      · exact Or.inr ⟨h1.symm, h2⟩
  simp only [get_fiscal_year]
  by_cases hc : m > sm ∨ (m = sm ∧ d ≥ sd)
  · rw [if_pos hc, if_pos (hiff.mpr hc)]
  · rw [if_neg hc, if_neg (fun hl => hc (hiff.mp hl))]

/-- C7: the sheet classifier gives Summary_(idx+1) with the header shown
by default, hides the header when every label is of int or float type,
and renames to Transaction_(idx+1) with the header shown when some
string label contains the whole word date; the two concrete claimed
instances follow. -/
theorem classify_sheet_correct (idx : Nat) (cols : List Label) :
    (cols.all isIntOrFloat = true →
      classify_sheet idx cols = ("Summary_" ++ toString (idx + 1), false)) ∧
    (cols.all isIntOrFloat = false → has_date_label cols = false →
      classify_sheet idx cols = ("Summary_" ++ toString (idx + 1), true)) ∧
    (has_date_label cols = true →
      classify_sheet idx cols = ("Transaction_" ++ toString (idx + 1), true)) ∧
    classify_sheet 0 [Label.intL 1, Label.intL 2, Label.intL 3] = ("Summary_1", false) ∧
    classify_sheet 0 [Label.strL "Transaction Date", Label.strL "Amount"] =
      ("Transaction_1", true) := by
  refine ⟨?_, ?_, ?_, by decide, by decide⟩
  · intro hall
    rw [classify_sheet, if_pos (by rw [contains_only_numbers_eq_all, hall])]
  · intro hall hdate
    rw [classify_sheet,
      if_neg (by rw [contains_only_numbers_eq_all, hall]; exact Bool.false_ne_true),
      if_neg (by rw [hdate]; exact Bool.false_ne_true)]
  · intro hdate
    rw [classify_sheet,
      if_neg (by
        rw [contains_only_numbers_eq_all, all_isIntOrFloat_eq_false_of_has_date cols hdate]
        exact Bool.false_ne_true),
      if_pos hdate]

/-- C7 witness: the classifier theorem applied at the claimed transaction
header, its hypothesis discharged by evaluation. -/
theorem classify_sheet_correct_witness :
    has_date_label [Label.strL "Transaction Date", Label.strL "Amount"] = true ∧
    classify_sheet 0 [Label.strL "Transaction Date", Label.strL "Amount"] =
      ("Transaction_1", true) :=
  ⟨by decide,
   (classify_sheet_correct 0 [Label.strL "Transaction Date", Label.strL "Amount"]).2.2.1
     (by decide)⟩

/-- C8 counterexample: for the empty column-label list the classifier
does not show the header, contrary to the claim. -/
theorem classify_sheet_nil_counterexample :
    ¬(classify_sheet 0 [] = ("Summary_1", true)) := by
  decide

/-- C8 amended: for every table whose column-label list has length zero,
the classifier does not fail and yields the name Summary_(idx+1) with the
header hidden (the all-numeric test is vacuously true on an empty label
list). -/
theorem classify_sheet_nil_amended (idx : Nat) :
    classify_sheet idx [] = ("Summary_" ++ toString (idx + 1), false) :=
  rfl

/-- C10: a singleton input consolidates to itself: same single table,
same rows in the same order, and no failure. -/
theorem merge_matching_columns_singleton {ρ : Type} (T : DataFrame ρ) :
    merge_matching_columns [T] = [T] := by
  simp [merge_matching_columns, collect_matches]

/-- C9 counterexample: a string can satisfy both the DD/MM/YYYY rule and
the bare DD/MM rule and still not return the d/m/Y tag, because the even
earlier YYYY-MM-DD rule also matches it. -/
theorem identify_date_format_priority_counterexample :
    searchPat matchDmY4At "2024-01-02 12/05/2024 and 12/05" = true ∧
    searchPat matchDmAt "2024-01-02 12/05/2024 and 12/05" = true ∧
    identify_date_format "2024-01-02 12/05/2024 and 12/05" = some "%Y-%m-%d" := by
  refine ⟨by decide, by decide, rfl⟩

/-- C9 amended: identify_date_format returns the tag of the first rule in
the documented order whose pattern matches; hence a string satisfying the
DD/MM/YYYY rule never yields the bare d/m tag, and yields the d/m/Y tag
provided the only earlier rule (YYYY-MM-DD) does not also match; the
claimed example string detects as d/m/Y while also satisfying the bare
DD/MM rule. -/
theorem identify_date_format_priority (s : String) :
    (searchPat matchDmY4At s = true → identify_date_format s ≠ some "%d/%m") ∧
    (searchPat matchDmY4At s = true → searchPat matchYmdAt s = false →
      identify_date_format s = some "%d/%m/%Y") ∧
    identify_date_format "12/05/2024 and 12/05" = some "%d/%m/%Y" ∧
    searchPat matchDmAt "12/05/2024 and 12/05" = true := by
  refine ⟨?_, ?_, rfl, by decide⟩
  · intro h2
    unfold identify_date_format date_patterns
    by_cases h1 : searchPat matchYmdAt s = true
    · rw [List.find?_cons_of_pos _ (by simpa using h1)]
      decide
    · rw [List.find?_cons_of_neg _ (by simpa using h1),
        List.find?_cons_of_pos _ (by simpa using h2)]
      decide
  · intro h2 h1
    unfold identify_date_format date_patterns
    rw [List.find?_cons_of_neg _ (by simpa using h1),
      List.find?_cons_of_pos _ (by simpa using h2)]
    rfl

/-- C9 witness: the amended priority theorem applied at the claimed
example string, both hypotheses discharged by evaluation. -/
theorem identify_date_format_priority_witness :
    identify_date_format "12/05/2024 and 12/05" ≠ some "%d/%m" ∧
    identify_date_format "12/05/2024 and 12/05" = some "%d/%m/%Y" :=
  ⟨(identify_date_format_priority "12/05/2024 and 12/05").1 (by decide),
   (identify_date_format_priority "12/05/2024 and 12/05").2.1 (by decide) (by decide)⟩
